import Mathlib

/-!
# Verification of the spend-wise period lifecycle engine and expense-logging UI

Shallow embedding of the spend-wise repository.  The repository's source
contains two UI components (`DailyLog.tsx` and the `NewPeriodPrompt`
component); the period engine (`periodManager` / `monthlyPeriod`) is only
called from them, so the engine is modelled from the specification while the
two components are translated directly from their TypeScript source.

Instants are modelled at calendar-day granularity: a period boundary "at
local midnight of startDay" is represented by the calendar date itself.
-/

namespace SpendWise

/-- A calendar date (local time, day granularity). -/
structure SWDate where
  year : Nat
  month : Nat
  day : Nat
deriving DecidableEq, Repr

/-- Numeric key that orders valid calendar dates lexicographically
(year, then month, then day); months are ≤ 12 < 32 and days ≤ 31 < 32. -/
def SWDate.key (d : SWDate) : Nat :=
  (d.year * 32 + d.month) * 32 + d.day

/-- Boolean date comparison used for period membership. -/
def dateLe (a b : SWDate) : Bool := decide (a.key ≤ b.key)

/-- Boolean strict date comparison. -/
def dateLt (a b : SWDate) : Bool := decide (a.key < b.key)

/-- Modelled from the spec: the (year, month) of the month after the given
month-key, wrapping December into January of the next year. -/
def nextMonthKey (y m : Nat) : Nat × Nat :=
  if m = 12 then (y + 1, 1) else (y, m + 1)

/-- Modelled from the spec: the (year, month) of the month before the given
month-key, wrapping January into December of the previous year. -/
def prevMonthKey (y m : Nat) : Nat × Nat :=
  if m = 1 then (y - 1, 12) else (y, m - 1)

/-- Two-digit zero padding for month numbers in period identifiers. -/
def pad2 (n : Nat) : String :=
  if n < 10 then "0" ++ toString n else toString n

/-- Modelled from the spec: the canonical period identifier, the year-month
of the month containing the period's start (for example "2024-05"). -/
def periodIdOf (y m : Nat) : String :=
  toString y ++ "-" ++ pad2 m

/-- A budget period: stable identifier, inclusive start date, exclusive
end date. -/
structure Period where
  id : String
  start : SWDate
  endDate : SWDate
deriving DecidableEq, Repr

/-- Modelled from the spec: `computePeriod(now, startDay)` from the missing
PeriodCalculator module.  `startDay` is clamped to at most 28; if `now`'s
day-of-month is at least `startDay` the period runs from startDay of this
month to startDay of the next month, otherwise from startDay of the
previous month to startDay of this month. -/
def computePeriod (now : SWDate) (startDay : Nat) : Period :=
  let s := min startDay 28
  if s ≤ now.day then
    let nk := nextMonthKey now.year now.month
    { id := periodIdOf now.year now.month
      start := ⟨now.year, now.month, s⟩
      endDate := ⟨nk.1, nk.2, s⟩ }
  else
    let pk := prevMonthKey now.year now.month
    { id := periodIdOf pk.1 pk.2
      start := ⟨pk.1, pk.2, s⟩
      endDate := ⟨now.year, now.month, s⟩ }

/-- Lexicographic comparison of character lists, by code point. -/
def charListLt : List Char → List Char → Bool
  | [], [] => false
  | [], _ :: _ => true
  | _ :: _, [] => false
  | a :: as, b :: bs =>
    if a < b then true else if b < a then false else charListLt as bs

/-- Lexicographic string comparison used on period identifiers ("lexically
and numerically" coincide on the canonical zero-padded year-month form). -/
def strLtb (a b : String) : Bool := charListLt a.data b.data

/-- Modelled from the spec: `checkForNewPeriod(lastAcknowledged, now)` from
the missing PeriodDetector module.  A rollover is reported exactly when the
marker is absent or strictly precedes the current period's identifier; a
marker lexically greater than the current identifier is treated as not new
(forward-only policy of section 4.2). -/
def checkForNewPeriod (lastAcknowledged : Option String) (now : SWDate)
    (startDay : Nat) : Bool × Period :=
  let p := computePeriod now startDay
  (match lastAcknowledged with
   | none => true
   | some s => strLtb s p.id, p)

/-- An expense as seen by the period engine. -/
structure EngineExpense where
  id : String
  date : SWDate
  category : String
  amount : ℚ
  note : String
deriving DecidableEq, Repr

/-- An immutable archive snapshot, keyed by period identifier. -/
structure ArchiveRecord where
  periodId : String
  snapshotOf : List EngineExpense
  archivedAt : SWDate
deriving DecidableEq, Repr

/-- The per-user persistent state behind the PersistenceGateway contract:
active expenses, archive records, and the last-acknowledged-period marker. -/
structure Store where
  expenses : List EngineExpense
  archives : List ArchiveRecord
  marker : Option String
deriving DecidableEq, Repr

/-- Whether an ArchiveRecord for the given period identifier exists. -/
def hasArchive (st : Store) (pid : String) : Bool :=
  st.archives.any (fun r => r.periodId == pid)

/-- Number of ArchiveRecords stored for a given period identifier. -/
def archiveCount (st : Store) (pid : String) : Nat :=
  (st.archives.filter (fun r => r.periodId == pid)).length

/-- Membership of a date in a period's half-open range. -/
def dateInPeriod (d : SWDate) (p : Period) : Bool :=
  dateLe p.start d && dateLt d p.endDate

/-- Modelled from the spec: the period ending at the boundary that triggered
the rollover, i.e. the period immediately preceding the current one (its
exclusive end is the current period's start). -/
def predPeriod (p : Period) : Period :=
  let pk := prevMonthKey p.start.year p.start.month
  { id := periodIdOf pk.1 pk.2
    start := ⟨pk.1, pk.2, p.start.day⟩
    endDate := p.start }

/-- Modelled from the spec: `archiveCurrentPeriod` from the missing
ArchiveManager module.  Fetch the previous period's expenses; if an
ArchiveRecord for the previous period already exists, skip snapshot
creation without overwriting; otherwise write the snapshot and remove
those expenses from the working set; unconditionally advance the marker to
the current period's identifier. -/
def archiveCurrentPeriod (now : SWDate) (startDay : Nat) (st : Store) :
    Store :=
  let current := computePeriod now startDay
  let previous := predPeriod current
  let snap := st.expenses.filter (fun e => dateInPeriod e.date previous)
  let st1 :=
    if hasArchive st previous.id then st
    else
      { st with
        archives := ⟨previous.id, snap, now⟩ :: st.archives
        expenses := st.expenses.filter
          (fun e => !(dateInPeriod e.date previous)) }
  { st1 with marker := some current.id }

/-- Modelled from the spec: `markPeriodAsChecked` from the missing
ArchiveManager module.  Advances the marker to the current period's
identifier with no data movement. -/
def markPeriodAsChecked (now : SWDate) (startDay : Nat) (st : Store) :
    Store :=
  { st with marker := some (computePeriod now startDay).id }

/-!
## NewPeriodPrompt (translated from the NewPeriodPrompt component source)

The two button handlers are synchronous closures.  `handleArchiveAndStart`
calls `archiveCurrentPeriod()` without `await`, shows a toast and invokes
`onClose()`; `handleContinue` calls `markPeriodAsChecked()` without `await`
and invokes `onClose()`.  We embed each handler as the ordered trace of the
events it performs; awaiting an engine operation's completion would appear
as an `opCompleted` event, and none occurs in either handler.
-/

/-- Observable steps of the NewPeriodPrompt button handlers. -/
inductive PromptEvent where
  | invokeArchive
  | invokeMark
  | opCompleted
  | toastNewPeriodStarted
  | closeInvoked
deriving DecidableEq, Repr

/-- Trace of `handleArchiveAndStart`: fire-and-forget call to
`archiveCurrentPeriod()`, success toast, then `onClose()`. -/
def handleArchiveAndStart : List PromptEvent :=
  [.invokeArchive, .toastNewPeriodStarted, .closeInvoked]

/-- Trace of `handleContinue`: fire-and-forget call to
`markPeriodAsChecked()`, then `onClose()`. -/
def handleContinue : List PromptEvent :=
  [.invokeMark, .closeInvoked]

/-!
## DailyLog (translated from `src/components/DailyLog.tsx`)

`handleAddExpense` is an async closure over the four form fields, the
`uid` and the local expense list.  Its interaction with the store is
captured by two parameters: whether the awaited `addExpense` call resolves
(`addOk`), and the result of the awaited reload `getExpenses` call
(`none` models a rejected promise).  JavaScript truthiness of the string
fields is emptiness; `parseFloat` is modelled by `jsParseFloat` with
`none` standing for NaN.
-/

/-- An expense row as kept in the DailyLog component state. -/
structure DLExpense where
  id : String
  date : String
  category : String
  amount : Option ℚ
  note : String
deriving DecidableEq, Repr

/-- A budget category as loaded by the DailyLog component. -/
structure BudgetCategory where
  id : String
  name : String
  plannedAmount : ℚ
deriving DecidableEq, Repr

/-- The four controlled form fields of the DailyLog component. -/
structure FormState where
  selectedCategory : String
  amount : String
  note : String
  date : String
deriving DecidableEq, Repr

/-- The component state touched by `handleAddExpense`. -/
structure DLState where
  expenses : List DLExpense
  form : FormState
deriving DecidableEq, Repr

/-- Leading digits of a character list, together with the rest. -/
def takeDigits : List Char → List Char × List Char
  | [] => ([], [])
  | c :: cs =>
    if c.isDigit then
      let r := takeDigits cs
      (c :: r.1, r.2)
    else ([], c :: cs)

/-- Decimal value of a digit list. -/
def digitsToNat (ds : List Char) : Nat :=
  ds.foldl (fun a c => a * 10 + (c.toNat - 48)) 0

/-- JavaScript `parseFloat` on the numeric prefix of a string: optional
sign, integer digits, optional fractional digits.  `none` models NaN
(no numeric prefix at all); trailing garbage is ignored as in JS. -/
def jsParseFloat (s : String) : Option ℚ :=
  let cs := s.data.dropWhile (fun c => c = ' ')
  let sgn : Bool × List Char :=
    match cs with
    | '-' :: r => (true, r)
    | '+' :: r => (false, r)
    | r => (false, r)
  let ip := takeDigits sgn.2
  let fp : List Char :=
    match ip.2 with
    | '.' :: r => (takeDigits r).1
    | _ => []
  if ip.1.isEmpty && fp.isEmpty then none
  else
    let mag : ℚ :=
      if fp.isEmpty then (digitsToNat ip.1 : ℚ)
      else (digitsToNat ip.1 : ℚ) + (digitsToNat fp : ℚ) / ((10 : ℚ) ^ fp.length)
    some (if sgn.1 then -mag else mag)

/-- JavaScript `String.prototype.trim`. -/
def jsTrim (s : String) : String :=
  ⟨((s.data.dropWhile Char.isWhitespace).reverse.dropWhile
      Char.isWhitespace).reverse⟩

/-- The expense payload built by `handleAddExpense` from the form fields
(`{ date, category, amount: parseFloat(amount), note: note.trim() }`). -/
structure NewExpense where
  date : String
  category : String
  amount : Option ℚ
  note : String
deriving DecidableEq, Repr

/-- Payload construction from the current form. -/
def mkNewExpense (f : FormState) : NewExpense :=
  ⟨f.date, f.selectedCategory, jsParseFloat f.amount, jsTrim f.note⟩

/-- The locally inserted row with the placeholder id "pending". -/
def pendingOf (ne : NewExpense) : DLExpense :=
  ⟨"pending", ne.date, ne.category, ne.amount, ne.note⟩

/-- Observable steps of `handleAddExpense`, in program order.
`writeConfirmed` is the awaited `addExpense` call resolving;
`writeFailed` is it rejecting; `setExpensesOptimistic` and
`setExpensesReload` are the two `setExpenses` call sites. -/
inductive DLEvent where
  | toastSelectCategoryAndAmount
  | writeConfirmed (e : NewExpense)
  | writeFailed (e : NewExpense)
  | setExpensesOptimistic (l : List DLExpense)
  | toastExpenseLogged
  | setExpensesReload (l : List DLExpense)
  | toastFailedToAdd
deriving DecidableEq, Repr

/-- Translation of `handleAddExpense`: guard on empty category or amount,
guard on missing uid, awaited `addExpense`, the "optimistic" local insert,
field clearing, success toast, awaited reload; a rejection of either
awaited call jumps to the catch block, which only toasts. -/
def handleAddExpense (uid : Option String) (st : DLState) (addOk : Bool)
    (reload : Option (List DLExpense)) : DLState × List DLEvent :=
  if st.form.selectedCategory.isEmpty || st.form.amount.isEmpty then
    (st, [.toastSelectCategoryAndAmount])
  else
    match uid with
    | none => (st, [])
    | some _ =>
      let ne := mkNewExpense st.form
      if addOk then
        let optimistic := pendingOf ne :: st.expenses
        let clearedForm : FormState :=
          { selectedCategory := "", amount := "", note := ""
            date := st.form.date }
        match reload with
        | some l =>
          ({ expenses := l, form := clearedForm },
           [.writeConfirmed ne, .setExpensesOptimistic optimistic,
            .toastExpenseLogged, .setExpensesReload l])
        | none =>
          ({ expenses := optimistic, form := clearedForm },
           [.writeConfirmed ne, .setExpensesOptimistic optimistic,
            .toastExpenseLogged, .toastFailedToAdd])
      else
        (st, [.writeFailed ne, .toastFailedToAdd])

/-- Does an event satisfying `p` occur, with an event satisfying `q`
strictly after it, in the trace? -/
def evBefore (p q : DLEvent → Bool) : List DLEvent → Bool
  | [] => false
  | e :: tr => if p e then tr.any q else evBefore p q tr

/-- The optimistic `setExpenses` call site. -/
def isOptimisticSet : DLEvent → Bool
  | .setExpensesOptimistic _ => true
  | _ => false

/-- The awaited `addExpense` write resolving. -/
def isWriteConfirm : DLEvent → Bool
  | .writeConfirmed _ => true
  | _ => false

/-!
## DailyLog initial load and rendering

The mount effect runs `Promise.all([getExpenses, getCategories])`; on
rejection it stores an error message and clears the loading flag.  The
render function returns the loading view while loading, the error view when
an error is recorded, and otherwise the list of the selected day's
expenses.
-/

/-- Component state consulted by the DailyLog render function. -/
structure LoadState where
  expenses : List DLExpense
  categories : List BudgetCategory
  loading : Bool
  error : Option String
deriving DecidableEq, Repr

/-- The effect body before the promise settles: `setLoading(true)` and
`setError(null)`. -/
def loadStart (st : LoadState) : LoadState :=
  { st with loading := true, error := none }

/-- The `.then` continuation: store both lists and clear the loading flag. -/
def loadResolve (st : LoadState) (es : List DLExpense)
    (cs : List BudgetCategory) : LoadState :=
  { st with expenses := es, categories := cs, loading := false }

/-- The `.catch` continuation: record the failure message and clear the
loading flag; the stale expense list is left in state. -/
def loadReject (st : LoadState) (msg : String) : LoadState :=
  { st with error := some msg, loading := false }

/-- What the component renders: the loading placeholder, the error view
(which carries no expense data), or the selected day's expense list. -/
inductive DLView where
  | loadingView
  | errorView (msg : String)
  | mainView (todays : List DLExpense)
deriving DecidableEq, Repr

/-- Translation of the DailyLog render branches: early return on loading,
early return on error, otherwise the filtered day view. -/
def renderDailyLog (st : LoadState) (date : String) : DLView :=
  if st.loading then .loadingView
  else
    match st.error with
    | some m => .errorView m
    | none => .mainView (st.expenses.filter (fun e => e.date == date))

/-!
## Concrete sample inputs used to instantiate the theorems
-/

/-- A reference instant shortly after a month boundary. -/
def sampleNow : SWDate := ⟨2024, 6, 3⟩

/-- A store holding one May expense, no archives, and a marker still on the
May period — the state right after a rollover into June. -/
def sampleStore : Store :=
  ⟨[⟨"e1", ⟨2024, 5, 20⟩, "Food", 5, "groceries"⟩], [], some "2024-05"⟩

/-- A filled-in expense form. -/
def sampleForm : FormState := ⟨"Food", "5", " lunch ", "2024-06-10"⟩

/-- DailyLog state with an empty list and the sample form. -/
def sampleDL : DLState := ⟨[], sampleForm⟩

/-- A form carrying a negative amount string. -/
def negForm : FormState := ⟨"Food", "-5", "", "2024-06-10"⟩

/-- A form carrying a non-numeric amount string. -/
def nanForm : FormState := ⟨"Food", "abc", "", "2024-06-10"⟩

/-!
## Helper lemmas on the lexicographic identifier order
-/

theorem charListLt_asymm : ∀ as bs, charListLt as bs = true →
    charListLt bs as = false
  | [], [] => by simp [charListLt]
  | [], _ :: _ => by simp [charListLt]
  | _ :: _, [] => by simp [charListLt]
  | a :: as, b :: bs => by
    intro h
    by_cases hab : a < b
    · have hba : ¬ b < a := asymm hab
      simp [charListLt, hab, hba]
    · by_cases hba : b < a
      · simp [charListLt, hab, hba] at h
      · have heq : charListLt as bs = true := by
          simpa [charListLt, hab, hba] using h
        simpa [charListLt, hab, hba] using charListLt_asymm as bs heq

theorem charListLt_irrefl (as : List Char) : charListLt as as = false := by
  cases h : charListLt as as with
  | false => rfl
  | true => exact absurd (charListLt_asymm as as h) (by simp [h])

theorem charListLt_trichotomy : ∀ as bs, charListLt as bs = true ∨ as = bs ∨
    charListLt bs as = true
  | [], [] => Or.inr (Or.inl rfl)
  | [], _ :: _ => Or.inl rfl
  | _ :: _, [] => Or.inr (Or.inr rfl)
  | a :: as, b :: bs => by
    rcases lt_trichotomy a b with h | h | h
    · exact Or.inl (by simp [charListLt, h])
    · subst h
      rcases charListLt_trichotomy as bs with h1 | h1 | h1
      · exact Or.inl (by simp [charListLt, lt_irrefl, h1])
      · exact Or.inr (Or.inl (by rw [h1]))
      · exact Or.inr (Or.inr (by simp [charListLt, lt_irrefl, h1]))
    · exact Or.inr (Or.inr (by simp [charListLt, h]))

theorem strLtb_asymm (a b : String) (h : strLtb a b = true) :
    strLtb b a = false :=
  charListLt_asymm a.data b.data h

theorem strLtb_ne (a b : String) (h : strLtb a b = true) : a ≠ b := by
  rintro rfl
  rw [strLtb, charListLt_irrefl] at h
  exact Bool.false_ne_true h

theorem strLtb_trichotomy (a b : String) :
    strLtb a b = true ∨ a = b ∨ strLtb b a = true := by
  rcases charListLt_trichotomy a.data b.data with h | h | h
  · exact Or.inl h
  · refine Or.inr (Or.inl ?_)
    cases a; cases b
    exact congrArg String.mk h
  · exact Or.inr (Or.inr h)

theorem filter_eq_nil_of_any_eq_false {α : Type} (p : α → Bool) :
    ∀ l : List α, l.any p = false → l.filter p = []
  | [], _ => rfl
  | a :: l, h => by
    have h1 : p a = false := by
      by_contra hpa
      rw [Bool.not_eq_false] at hpa
      simp [List.any, hpa] at h
    have h2 : l.any p = false := by
      simpa [List.any, h1] using h
    simp [List.filter, h1, filter_eq_nil_of_any_eq_false p l h2]

/-!
## Claim theorems
-/

/-- Claim C2: for every instant and every startDay in 1..28, computePeriod
returns `[thisMonth.startDay, nextMonth.startDay)` when now's day-of-month
is at least startDay and `[prevMonth.startDay, thisMonth.startDay)`
otherwise, each boundary on startDay of the respective month; in
particular for startDay = 15 and now = 2024-06-10 the period is
2024-05-15 .. 2024-06-15 with identifier "2024-05". -/
theorem computePeriod_boundaries (now : SWDate) (startDay : Nat)
    (_h1 : 1 ≤ startDay) (h2 : startDay ≤ 28) :
    (startDay ≤ now.day →
      computePeriod now startDay =
        { id := periodIdOf now.year now.month
          start := ⟨now.year, now.month, startDay⟩
          endDate := ⟨(nextMonthKey now.year now.month).1,
                      (nextMonthKey now.year now.month).2, startDay⟩ })
    ∧ (now.day < startDay →
      computePeriod now startDay =
        { id := periodIdOf (prevMonthKey now.year now.month).1
                  (prevMonthKey now.year now.month).2
          start := ⟨(prevMonthKey now.year now.month).1,
                    (prevMonthKey now.year now.month).2, startDay⟩
          endDate := ⟨now.year, now.month, startDay⟩ })
    ∧ computePeriod ⟨2024, 6, 10⟩ 15 =
        { id := "2024-05", start := ⟨2024, 5, 15⟩, endDate := ⟨2024, 6, 15⟩ } := by
  have hmin : min startDay 28 = startDay := min_eq_left h2
  refine ⟨fun h => ?_, fun h => ?_, by decide⟩
  · simp [computePeriod, hmin, h]
  · simp [computePeriod, hmin, Nat.not_le.mpr h]

/-- Witness for C2 at startDay = 15, now = 2024-06-10. -/
theorem computePeriod_boundaries_witness :
    computePeriod ⟨2024, 6, 10⟩ 15 =
      { id := "2024-05", start := ⟨2024, 5, 15⟩, endDate := ⟨2024, 6, 15⟩ } :=
  (computePeriod_boundaries ⟨2024, 6, 10⟩ 15 (by decide) (by decide)).2.2

/-- Claim C3: checkForNewPeriod reports a new period exactly when the
marker is null or differs from the current period's identifier, except
that a marker greater than the current identifier yields not-new; the
engine never re-triggers for a period already passed. -/
theorem checkForNewPeriod_isNew_iff (lastAcknowledged : Option String)
    (now : SWDate) (startDay : Nat) :
    ((checkForNewPeriod lastAcknowledged now startDay).1 = true ↔
      lastAcknowledged = none ∨
        ∃ s, lastAcknowledged = some s ∧ s ≠ (computePeriod now startDay).id ∧
          strLtb (computePeriod now startDay).id s = false)
    ∧ (∀ s, lastAcknowledged = some s →
        strLtb (computePeriod now startDay).id s = true →
        (checkForNewPeriod lastAcknowledged now startDay).1 = false) := by
  constructor
  · cases lastAcknowledged with
    | none => simp [checkForNewPeriod]
    | some s =>
      have hred : (checkForNewPeriod (some s) now startDay).1
          = strLtb s (computePeriod now startDay).id := rfl
      rw [hred]
      constructor
      · intro h
        exact Or.inr ⟨s, rfl, strLtb_ne s _ h, strLtb_asymm s _ h⟩
      · rintro (h | ⟨t, ht, hne, hnot⟩)
        · simp at h
        · injection ht with h'
          subst h'
          rcases strLtb_trichotomy s (computePeriod now startDay).id with
            h1 | h1 | h1
          · exact h1
          · exact absurd h1 hne
          · simp [h1] at hnot
  · intro s hs hgt
    subst hs
    simp only [checkForNewPeriod]
    exact strLtb_asymm _ s hgt

/-- Witness for C3: a marker ahead of the current period (clock moved
backward) is reported as not new. -/
theorem checkForNewPeriod_isNew_iff_witness :
    (checkForNewPeriod (some "2024-07") ⟨2024, 6, 3⟩ 1).1 = false :=
  (checkForNewPeriod_isNew_iff (some "2024-07") ⟨2024, 6, 3⟩ 1).2
    "2024-07" rfl (by decide)

/-- Claim C1: archiveCurrentPeriod is idempotent per period: starting from
a state with no ArchiveRecord for the rolled-over (previous) period, the
first call produces exactly one ArchiveRecord for it, and the second call
is a complete no-op — same archives, same expenses, same marker. -/
theorem archiveCurrentPeriod_idempotent (now : SWDate) (startDay : Nat)
    (st : Store)
    (hfresh : hasArchive st (predPeriod (computePeriod now startDay)).id
      = false) :
    archiveCount (archiveCurrentPeriod now startDay st)
        (predPeriod (computePeriod now startDay)).id = 1
    ∧ archiveCurrentPeriod now startDay (archiveCurrentPeriod now startDay st)
        = archiveCurrentPeriod now startDay st := by
  have hnil : st.archives.filter
      (fun r => r.periodId == (predPeriod (computePeriod now startDay)).id)
      = [] :=
    filter_eq_nil_of_any_eq_false _ st.archives hfresh
  have h1 : archiveCurrentPeriod now startDay st =
      { expenses := st.expenses.filter
          (fun e => !(dateInPeriod e.date (predPeriod (computePeriod now startDay))))
        archives :=
          ⟨(predPeriod (computePeriod now startDay)).id,
           st.expenses.filter
             (fun e => dateInPeriod e.date (predPeriod (computePeriod now startDay))),
           now⟩ :: st.archives
        marker := some (computePeriod now startDay).id } := by
    simp [archiveCurrentPeriod, hfresh]
  constructor
  · rw [h1]
    simp [archiveCount, List.filter, hnil]
  · rw [h1]
    have hhit : hasArchive
        { expenses := st.expenses.filter
            (fun e => !(dateInPeriod e.date (predPeriod (computePeriod now startDay))))
          archives :=
            ⟨(predPeriod (computePeriod now startDay)).id,
             st.expenses.filter
               (fun e => dateInPeriod e.date (predPeriod (computePeriod now startDay))),
             now⟩ :: st.archives
          marker := some (computePeriod now startDay).id }
        (predPeriod (computePeriod now startDay)).id = true := by
      simp [hasArchive]
    simp [archiveCurrentPeriod, hhit]

/-- Witness for C1 at the sample store right after the May→June rollover. -/
theorem archiveCurrentPeriod_idempotent_witness :
    archiveCount (archiveCurrentPeriod sampleNow 1 sampleStore)
        (predPeriod (computePeriod sampleNow 1)).id = 1
    ∧ archiveCurrentPeriod sampleNow 1
        (archiveCurrentPeriod sampleNow 1 sampleStore)
        = archiveCurrentPeriod sampleNow 1 sampleStore :=
  archiveCurrentPeriod_idempotent sampleNow 1 sampleStore (by decide)

/-- Claim C4: the LastAcknowledgedMarker is monotonic: when an operation is
taken on a detected rollover, both archiveCurrentPeriod and
markPeriodAsChecked set the marker to the current period's identifier, and
that identifier is never lexically below the marker's current value. -/
theorem lastAcknowledged_marker_monotonic (now : SWDate) (startDay : Nat)
    (st : Store)
    (h : (checkForNewPeriod st.marker now startDay).1 = true) :
    (archiveCurrentPeriod now startDay st).marker
        = some (computePeriod now startDay).id
    ∧ (markPeriodAsChecked now startDay st).marker
        = some (computePeriod now startDay).id
    ∧ ∀ s, st.marker = some s →
        strLtb (computePeriod now startDay).id s = false := by
  refine ⟨rfl, rfl, fun s hs => ?_⟩
  rw [hs] at h
  simp only [checkForNewPeriod] at h
  exact strLtb_asymm s _ h

/-- Witness for C4 at a marker one period behind the current instant. -/
theorem lastAcknowledged_marker_monotonic_witness :
    strLtb (computePeriod sampleNow 1).id "2024-05" = false :=
  (lastAcknowledged_marker_monotonic sampleNow 1 sampleStore (by decide)).2.2
    "2024-05" rfl

/-- Claim C5: evaluated at the failing input (clicking either button of the
NewPeriodPrompt), both handler traces invoke onClose while containing no
completion of the engine operation they started: the operations are not
awaited, so onClose runs before archiveCurrentPeriod or
markPeriodAsChecked has completed. -/
theorem newPeriodPrompt_onClose_without_await :
    (handleArchiveAndStart.contains .closeInvoked = true
      ∧ handleArchiveAndStart.contains .opCompleted = false)
    ∧ (handleContinue.contains .closeInvoked = true
      ∧ handleContinue.contains .opCompleted = false) := by decide

/-- Claim C6 counterexample: in a concrete successful run of
handleAddExpense the local-list update never precedes the awaited write's
confirmation — it strictly follows it — and in a concrete failing run no
local-list update happens at all, so the list is not updated before the
write is confirmed. -/
theorem handleAddExpense_not_optimistic_cex :
    evBefore isOptimisticSet isWriteConfirm
        (handleAddExpense (some "u1") sampleDL true (some [])).2 = false
    ∧ evBefore isWriteConfirm isOptimisticSet
        (handleAddExpense (some "u1") sampleDL true (some [])).2 = true
    ∧ (handleAddExpense (some "u1") sampleDL false none).1 = sampleDL
    ∧ (handleAddExpense (some "u1") sampleDL false none).2.any
        isOptimisticSet = false := by decide

/-- Claim C6 (amended): the local list is updated with a pending-id entry
only after the awaited addExpense write resolves successfully; when the
write fails, the handler only toasts and leaves the list untouched, so
there is no optimistic entry to revert. -/
theorem handleAddExpense_update_after_write (st : DLState) (u : String)
    (reload : Option (List DLExpense))
    (hc : st.form.selectedCategory.isEmpty = false)
    (ha : st.form.amount.isEmpty = false) :
    evBefore isWriteConfirm isOptimisticSet
        (handleAddExpense (some u) st true reload).2 = true
    ∧ evBefore isOptimisticSet isWriteConfirm
        (handleAddExpense (some u) st true reload).2 = false
    ∧ handleAddExpense (some u) st false reload =
        (st, [.writeFailed (mkNewExpense st.form), .toastFailedToAdd]) := by
  cases reload <;>
    simp [handleAddExpense, hc, ha, evBefore, isWriteConfirm, isOptimisticSet]

/-- Witness for the amended C6 at the sample form. -/
theorem handleAddExpense_update_after_write_witness :
    evBefore isWriteConfirm isOptimisticSet
        (handleAddExpense (some "u1") sampleDL true (some [])).2 = true
    ∧ evBefore isOptimisticSet isWriteConfirm
        (handleAddExpense (some "u1") sampleDL true (some [])).2 = false
    ∧ handleAddExpense (some "u1") sampleDL false (some []) =
        (sampleDL, [.writeFailed (mkNewExpense sampleDL.form),
          .toastFailedToAdd]) :=
  handleAddExpense_update_after_write sampleDL "u1" (some [])
    (by decide) (by decide)

/-- Claim C7 counterexample: a negative amount string "-5" passes the
boundary — the store write carries amount -5 < 0 — and a malformed amount
string "abc" is written as NaN; neither run raises the validation toast. -/
theorem handleAddExpense_accepts_negative_cex :
    DLEvent.writeConfirmed ⟨"2024-06-10", "Food", some (-5 : ℚ), ""⟩ ∈
        (handleAddExpense (some "u1") ⟨[], negForm⟩ true (some [])).2
    ∧ ((-5 : ℚ) < 0)
    ∧ DLEvent.writeConfirmed ⟨"2024-06-10", "Food", none, ""⟩ ∈
        (handleAddExpense (some "u1") ⟨[], nanForm⟩ true (some [])).2
    ∧ (handleAddExpense (some "u1") ⟨[], negForm⟩ true (some [])).2.contains
        .toastSelectCategoryAndAmount = false
    ∧ (handleAddExpense (some "u1") ⟨[], nanForm⟩ true (some [])).2.contains
        .toastSelectCategoryAndAmount = false := by decide

/-- Claim C7 (amended): the expense boundary rejects only an unselected
category or an empty amount string, with a toast; any non-empty amount
string is passed through parseFloat and the parsed value — negative or
NaN — is written to the store without any range validation. -/
theorem handleAddExpense_boundary_validation (st : DLState) (u : String)
    (uid : Option String) (addOk : Bool)
    (reload : Option (List DLExpense)) :
    (st.form.selectedCategory.isEmpty = false →
      st.form.amount.isEmpty = false →
      (handleAddExpense (some u) st true reload).2.head? =
        some (.writeConfirmed (mkNewExpense st.form)))
    ∧ ((st.form.selectedCategory.isEmpty = true ∨
        st.form.amount.isEmpty = true) →
      handleAddExpense uid st addOk reload =
        (st, [.toastSelectCategoryAndAmount])) := by
  constructor
  · intro hc ha
    cases reload <;> simp [handleAddExpense, hc, ha]
  · rintro (h | h) <;> simp [handleAddExpense, h]

/-- Witness for the amended C7: the negative amount is written as parsed. -/
theorem handleAddExpense_boundary_validation_witness :
    (handleAddExpense (some "u1") ⟨[], negForm⟩ true (some [])).2.head? =
      some (.writeConfirmed (mkNewExpense negForm)) :=
  (handleAddExpense_boundary_validation ⟨[], negForm⟩ "u1" (some "u1") true
    (some [])).1 (by decide) (by decide)

/-- Claim C8: after a failed initial load the component renders the
generic load-failure view, which carries no expense data, instead of the
expense list. -/
theorem dailyLog_failed_load_shows_error (st : LoadState)
    (msg date : String) :
    renderDailyLog (loadReject (loadStart st) msg) date = .errorView msg := by
  simp [renderDailyLog, loadReject, loadStart]

/-- Claim C9: on a successful write the category, amount and note fields
are cleared and the date is unchanged; on a failed write the whole
component state is unchanged and the handler only records the failed call
and its toast. -/
theorem handleAddExpense_frame (st : DLState) (u : String)
    (reload : Option (List DLExpense))
    (hc : st.form.selectedCategory.isEmpty = false)
    (ha : st.form.amount.isEmpty = false) :
    ((handleAddExpense (some u) st true reload).1.form.selectedCategory = ""
      ∧ (handleAddExpense (some u) st true reload).1.form.amount = ""
      ∧ (handleAddExpense (some u) st true reload).1.form.note = ""
      ∧ (handleAddExpense (some u) st true reload).1.form.date
          = st.form.date)
    ∧ ((handleAddExpense (some u) st false reload).1 = st
      ∧ (handleAddExpense (some u) st false reload).2 =
          [.writeFailed (mkNewExpense st.form), .toastFailedToAdd]) := by
  cases reload <;> simp [handleAddExpense, hc, ha]

/-- Witness for C9 at the sample form. -/
theorem handleAddExpense_frame_witness :
    ((handleAddExpense (some "u1") sampleDL true (some [])).1.form.selectedCategory = ""
      ∧ (handleAddExpense (some "u1") sampleDL true (some [])).1.form.amount = ""
      ∧ (handleAddExpense (some "u1") sampleDL true (some [])).1.form.note = ""
      ∧ (handleAddExpense (some "u1") sampleDL true (some [])).1.form.date
          = sampleDL.form.date)
    ∧ ((handleAddExpense (some "u1") sampleDL false (some [])).1 = sampleDL
      ∧ (handleAddExpense (some "u1") sampleDL false (some [])).2 =
          [.writeFailed (mkNewExpense sampleDL.form), .toastFailedToAdd]) :=
  handleAddExpense_frame sampleDL "u1" (some []) (by decide) (by decide)

/-- Claim C10: with no user identifier, handleAddExpense with a selected
category and non-empty amount returns without any effect: state unchanged
and an empty event trace (no store write, no toast). -/
theorem handleAddExpense_without_uid_noop (st : DLState) (addOk : Bool)
    (reload : Option (List DLExpense))
    (hc : st.form.selectedCategory.isEmpty = false)
    (ha : st.form.amount.isEmpty = false) :
    handleAddExpense none st addOk reload = (st, []) := by
  simp [handleAddExpense, hc, ha]

/-- Witness for C10 at the sample form. -/
theorem handleAddExpense_without_uid_noop_witness :
    handleAddExpense none sampleDL true (some []) = (sampleDL, []) :=
  handleAddExpense_without_uid_noop sampleDL true (some [])
    (by decide) (by decide)

end SpendWise
